import Mathlib

/-!
Verification of the fan-wheel layout engine of the SIL_PPT repository
against its specification.

The embedding follows the source scripts:
* `src/graphics/slide 2/wheel_generator_dynamic.py` — the dynamic wheel
  generator (`DynamicFanWheelGenerator`): angular partition, logo
  resolution with cache and letter-logo fallback, corner-pixel
  background sniffing, per-segment initials fallback.
* `src/graphics/slide 2/generate_fan_wheel_with_logos.py` — the inline
  two-line text-wrap rule (lines 330-350), called `wrap_two_lines` by
  the spec.

Machine integers do not occur (Python ints are unbounded); angles are
modelled over `ℚ` since the claims speak of exact widths and sums.
External effects (HTTP requests, the file system) are modelled as an
oracle `String → Option FileBytes` mapping a domain to the response of
a successful image-typed request, and an association list from paths
to file contents.
-/

namespace SILPPT

/-! ## Text wrapping (`generate_fan_wheel_with_logos.py`, lines 330-350)

The Python code receives the behaviour phrase, joins any existing line
breaks away, and splits it on whitespace; the function below takes the
resulting word list and returns the list of rendered lines:

    words = text.split()
    if len(words) >= 2:
        if len(words) == 2:
            line1 = words[0]; line2 = words[1]
        else:
            mid = len(words) // 2
            if len(words) > 3 and len(words[mid - 1]) <= 3:
                mid -= 1
            line1 = ' '.join(words[:mid]); line2 = ' '.join(words[mid:])
        formatted_text = line1 + "\n" + line2
    else:
        formatted_text = text
-/

/-- The split index the source computes for three or more words:
`mid = len(words) // 2`, decremented when `len(words) > 3` and the
word just before the split (`words[mid - 1]`) has at most three
characters. -/
def wrapMid (words : List String) : ℕ :=
  if 3 < words.length ∧ (words.getD (words.length / 2 - 1) "").length ≤ 3 then
    words.length / 2 - 1
  else words.length / 2

/-- The two-line wrap rule exactly as the source computes it: two or
more words give the pair of lines, fewer give the joined text as a
single line. -/
def wrap_two_lines (words : List String) : List String :=
  if 2 ≤ words.length then
    if words.length = 2 then
      [words.getD 0 "", words.getD 1 ""]
    else
      [String.intercalate " " (words.take (wrapMid words)),
       String.intercalate " " (words.drop (wrapMid words))]
  else [String.intercalate " " words]

/-- The split index as claim C2 words it: floor(word_count/2), shifted
left by one whenever the last word of the tentative first line has at
most three characters — with no lower bound on the word count for the
shift. Stated from the claim's words, for comparison with `wrapMid`. -/
def wrapMidClaimed (words : List String) : ℕ :=
  if ((words.take (words.length / 2)).getLastD "").length ≤ 3 then
    words.length / 2 - 1
  else words.length / 2

/-- The wrap rule as claim C2 words it, using `wrapMidClaimed`. -/
def wrapTwoLinesClaimed (words : List String) : List String :=
  if words.length = 1 then words
  else if words.length = 2 then words
  else if 3 ≤ words.length then
    [String.intercalate " " (words.take (wrapMidClaimed words)),
     String.intercalate " " (words.drop (wrapMidClaimed words))]
  else words

/-- The split index of claim C2, amended only in the shift guard: the
split point moves left by one only when there are more than three
words (the source never shifts a three-word phrase). -/
def wrapMidAmended (words : List String) : ℕ :=
  if 3 < words.length ∧
      ((words.take (words.length / 2)).getLastD "").length ≤ 3 then
    words.length / 2 - 1
  else words.length / 2

/-- The wrap rule as claim C2 words it, with the amended shift guard. -/
def wrapTwoLinesAmended (words : List String) : List String :=
  if words.length = 1 then words
  else if words.length = 2 then words
  else if 3 ≤ words.length then
    [String.intercalate " " (words.take (wrapMidAmended words)),
     String.intercalate " " (words.drop (wrapMidAmended words))]
  else words

/-- The last element of a prefix of length `k` is the element at index
`k - 1`, whenever `1 ≤ k ≤ l.length`. Bridges the claim's phrasing
(last word of the first line) with the source's index `words[mid-1]`. -/
theorem take_getLastD (l : List String) (k : ℕ) (h1 : 1 ≤ k)
    (h2 : k ≤ l.length) : (l.take k).getLastD "" = l.getD (k - 1) "" := by
  rw [List.getLastD_eq_getLast?, List.getLast?_eq_getElem?, List.length_take,
    List.getD_eq_getElem?_getD, List.getElem?_take, min_eq_left h2,
    if_pos (by omega)]

/-- For at least three words the source's split index agrees with the
amended claim's description of it. -/
theorem wrapMid_eq_amended (words : List String) (h : 3 ≤ words.length) :
    wrapMid words = wrapMidAmended words := by
  unfold wrapMid wrapMidAmended
  rw [take_getLastD words (words.length / 2) (by omega) (Nat.div_le_self _ _)]

/-- Claim C2, counterexample: on the three-word input
`["Fan", "of", "Sports"]` the claim's rule shifts the split (the
tentative first line ends in "Fan", three characters), producing an
empty first line, while the source only shifts for more than three
words and keeps "Fan" on the first line. -/
theorem wrap_shift_guard_counterexample :
    wrap_two_lines ["Fan", "of", "Sports"] = ["Fan", "of Sports"] ∧
    wrapTwoLinesClaimed ["Fan", "of", "Sports"] = ["", "Fan of Sports"] ∧
    wrap_two_lines ["Fan", "of", "Sports"] ≠
      wrapTwoLinesClaimed ["Fan", "of", "Sports"] := by
  refine ⟨?_, ?_, ?_⟩ <;> decide

/-- Claim C2 (amended): `wrap_two_lines` on any nonempty word sequence
returns a single word unsplit, two words one per line, and for three
or more words splits at floor(word_count/2), shifting the split left
by one word only when the word count exceeds three and the last word
of the tentative first line has at most three characters; the two
lines are the joins of the words before and from the split index. -/
theorem wrap_two_lines_amended_ok (ws : List String) (h : 1 ≤ ws.length) :
    wrap_two_lines ws = wrapTwoLinesAmended ws := by
  rcases ws with _ | ⟨a, ws1⟩
  · simp at h
  rcases ws1 with _ | ⟨b, ws2⟩
  · simp [wrap_two_lines, wrapTwoLinesAmended, String.intercalate]
    rfl
  rcases ws2 with _ | ⟨c, t⟩
  · simp [wrap_two_lines, wrapTwoLinesAmended]
  · have h3 : 3 ≤ (a :: b :: c :: t).length := by simp
    rw [wrap_two_lines, wrapTwoLinesAmended, wrapMid_eq_amended _ h3]
    simp only [List.length_cons]
    split_ifs <;> first | rfl | omega

/-- Witness for `wrap_two_lines_amended_ok` at a concrete four-word
input. -/
theorem wrap_two_lines_amended_witness :
    1 ≤ (["Fan", "of", "College", "Sports"] : List String).length ∧
    wrap_two_lines ["Fan", "of", "College", "Sports"] =
      wrapTwoLinesAmended ["Fan", "of", "College", "Sports"] :=
  ⟨by decide, wrap_two_lines_amended_ok _ (by decide)⟩

/-- Claim C3, counterexample: the source wraps
`["Shops", "at", "AutoZone"]` as ("Shops", "at AutoZone"), not the
claimed ("Shops at", "AutoZone") — the split at floor(3/2) = 1 leaves
one word on the first line. -/
theorem wrap_examples_counterexample :
    wrap_two_lines ["Shops", "at", "AutoZone"] ≠ ["Shops at", "AutoZone"] ∧
    wrap_two_lines ["Shops", "at", "AutoZone"] = ["Shops", "at AutoZone"] := by
  constructor <;> decide

/-- Claim C3 (amended): `wrap_two_lines(["Shops","at","AutoZone"])`
returns ("Shops", "at AutoZone"), and
`wrap_two_lines(["Fan","of","College","Sports"])` returns
("Fan", "of College Sports"). -/
theorem wrap_examples_ok :
    wrap_two_lines ["Shops", "at", "AutoZone"] = ["Shops", "at AutoZone"] ∧
    wrap_two_lines ["Fan", "of", "College", "Sports"] =
      ["Fan", "of College Sports"] := by
  constructor <;> decide

/-! ## Segment records and wheel geometry
(`wheel_generator_dynamic.py`, `generate_wheel`, lines 447-499)

One row of the wheel data frame, with the columns the engine reads
(`COMMUNITY`, `MERCHANT`, `PERC_INDEX`, `behavior`) and the
`logo_path` column it writes during the download loop. The geometry
is `angle_step = 360 / num_items` and, for sector `i`,
`start_angle = i * angle_step - 90`, `end_angle = (i+1) * angle_step - 90`,
in matplotlib's convention: degrees measured counterclockwise from the
positive x axis, y axis pointing up. Angles are modelled over `ℚ`
because the claims assert exact widths and sums. -/

structure Row where
  community : String
  merchant : String
  perc_index : ℚ
  behavior : String
  logo_path : String
deriving DecidableEq, Repr

/-- `angle_step = 360 / num_items`. -/
def angle_step (df : List Row) : ℚ := 360 / df.length

/-- `start_angle = i * angle_step - 90` (degrees, matplotlib
convention). -/
def start_angle (df : List Row) (i : ℕ) : ℚ := i * angle_step df - 90

/-- `end_angle = (i + 1) * angle_step - 90`. -/
def end_angle (df : List Row) (i : ℕ) : ℚ := (i + 1) * angle_step df - 90

/-- Angular width of sector `i`. -/
def sector_width (df : List Row) (i : ℕ) : ℚ :=
  end_angle df i - start_angle df i

/-- The wedges drawn by the `for i in range(num_items)` loop, one per
input row, in input order. -/
def sectors (df : List Row) : List (ℚ × ℚ) :=
  (List.range df.length).map fun i => (start_angle df i, end_angle df i)

/-- An angle reduced to its direction in `[0, 360)` degrees:
`normDeg θ` is the representative of `θ` modulo a full turn. -/
def normDeg (θ : ℚ) : ℚ := θ - 360 * ⌊θ / 360⌋

/-- Direction of 12 o'clock in the convention of the drawing code
(counterclockwise degrees from the positive x axis, y up): 90°. -/
def topDeg : ℚ := 90

/-- Direction of 6 o'clock in the same convention: 270°. -/
def bottomDeg : ℚ := 270

/-- A concrete four-row wheel table used as test input. -/
def df4 : List Row :=
  [⟨"Skiers", "REI", 71, "Skies with REI", ""⟩,
   ⟨"Surf", "Rip Curl", 23, "Surfs Rip Curl", ""⟩,
   ⟨"Yogis", "Lululemon", 45, "Stretches with Lululemon", ""⟩,
   ⟨"Gamers", "Razer", 33, "Games on Razer", ""⟩]

/-- Claim C1: for every input of N ≥ 1 segments the render partitions
the wheel into exactly N sectors in input order, each of width exactly
360/N, summing to exactly 360; and the widths depend only on the
number of segments, not on any row's rank value. -/
theorem sector_partition_ok (df : List Row) (h : 1 ≤ df.length) :
    (sectors df).length = df.length ∧
    (∀ i, sector_width df i = 360 / df.length) ∧
    (∑ i in Finset.range df.length, sector_width df i) = 360 ∧
    (∀ df2 : List Row, df2.length = df.length →
      ∀ i, sector_width df2 i = sector_width df i) := by
  have hn : (df.length : ℚ) ≠ 0 := Nat.cast_ne_zero.mpr (by omega)
  have hw : ∀ i, sector_width df i = 360 / df.length := by
    intro i
    unfold sector_width end_angle start_angle angle_step
    ring
  refine ⟨by simp [sectors], hw, ?_, ?_⟩
  · rw [Finset.sum_congr rfl fun i _ => hw i]
    rw [Finset.sum_const, Finset.card_range, nsmul_eq_mul]
    field_simp
  · intro df2 hlen i
    unfold sector_width end_angle start_angle angle_step
    rw [hlen]

/-- Witness for `sector_partition_ok` on the four-row table. -/
theorem sector_partition_witness :
    1 ≤ df4.length ∧
    ((sectors df4).length = df4.length ∧
    (∀ i, sector_width df4 i = 360 / df4.length) ∧
    (∑ i in Finset.range df4.length, sector_width df4 i) = 360 ∧
    (∀ df2 : List Row, df2.length = df4.length →
      ∀ i, sector_width df2 i = sector_width df4 i)) :=
  ⟨by decide, sector_partition_ok df4 (by decide)⟩

/-- The floor of -90/360 as a rational, used to normalize the first
sector's start direction. -/
theorem floor_neg_quarter : ⌊(-90 : ℚ) / 360⌋ = -1 := by
  rw [Int.floor_eq_iff]
  norm_num

/-- Claim C7, counterexample: on a four-segment wheel, sector 0's
start boundary lies at direction 270° — 6 o'clock, the bottom — not at
the top (90°), and sector 1 starts 90° counterclockwise of sector 0
(start angles increase), so successive sectors proceed
counterclockwise, not clockwise. -/
theorem sector_orientation_counterexample :
    normDeg (start_angle df4 0) = bottomDeg ∧
    bottomDeg ≠ topDeg ∧
    start_angle df4 1 = start_angle df4 0 + 90 := by
  have h0 : start_angle df4 0 = -90 := by
    norm_num [start_angle, angle_step, df4]
  refine ⟨?_, by norm_num [bottomDeg, topDeg], ?_⟩
  · rw [h0, normDeg, floor_neg_quarter]
    norm_num [bottomDeg]
  · rw [h0]
    norm_num [start_angle, angle_step, df4]

/-- Claim C7 (amended): for every N ≥ 1, sector 0 begins at the bottom
of the wheel (6 o'clock, direction 270° in the drawing convention) and
successive sectors proceed counterclockwise: each start angle exceeds
the previous by the positive step 360/N. -/
theorem sector_orientation_amended_ok (df : List Row) (h : 1 ≤ df.length) :
    normDeg (start_angle df 0) = bottomDeg ∧
    (∀ i : ℕ, start_angle df (i + 1) = start_angle df i + angle_step df) ∧
    0 < angle_step df := by
  refine ⟨?_, ?_, ?_⟩
  · have h0 : start_angle df 0 = -90 := by simp [start_angle]
    rw [h0, normDeg, floor_neg_quarter]
    norm_num [bottomDeg]
  · intro i
    unfold start_angle
    push_cast
    ring
  · unfold angle_step
    have hp : (0 : ℚ) < df.length := by
      have hd : 0 < df.length := h
      exact_mod_cast hd
    positivity

/-- Witness for `sector_orientation_amended_ok` on the four-row
table. -/
theorem sector_orientation_amended_witness :
    1 ≤ df4.length ∧
    (normDeg (start_angle df4 0) = bottomDeg ∧
    (∀ i : ℕ, start_angle df4 (i + 1) = start_angle df4 i + angle_step df4) ∧
    0 < angle_step df4) :=
  ⟨by decide, sector_orientation_amended_ok df4 (by decide)⟩

/-! ## Images, files and the network oracle

A decoded raster: size plus a pixel function (RGBA channels as
integers, as PIL's `getpixel` returns after `convert('RGBA')`), and
the `ImageDraw.text` calls recorded as data, since font rasterization
is outside the model and no claim depends on glyph pixels. A file on
disk either decodes as an image or is junk that `Image.open` rejects.
The network is an oracle from a domain to the payload of a successful
image-typed response (`none` models a failed request, a non-200
status, or a non-image content type — the code treats all three the
same way). The logo directory is an association list from paths to
file contents. -/

structure PixelRGBA where
  r : ℤ
  g : ℤ
  b : ℤ
  a : ℤ
deriving DecidableEq, Repr

structure PILImage where
  width : ℕ
  height : ℕ
  pixel : ℕ → ℕ → PixelRGBA
  texts : List (ℕ × ℕ × String)

inductive FileBytes where
  | image (img : PILImage)
  | junk

abbrev FS := List (String × FileBytes)

/-! ## Python string helpers

`str.lower`, `str.replace` (all patterns in the source are single
characters) and `str.strip`, re-implemented structurally over the
character list so that every definition evaluates. -/

/-- The apostrophe character, code point 39. -/
def apostropheChar : Char := Char.ofNat 39

/-- Replace every occurrence of character `c` by `r`. -/
def replaceChar (c : Char) (r : List Char) : List Char → List Char
  | [] => []
  | x :: xs => if x = c then r ++ replaceChar c r xs else x :: replaceChar c r xs

/-- Python `s.replace(c, r)` for a one-character pattern `c`. -/
def pyReplace (s : String) (c : Char) (r : String) : String :=
  String.mk (replaceChar c r.data s.data)

/-- Python `s.lower()`. -/
def pyLower (s : String) : String := String.mk (s.data.map Char.toLower)

/-- Python `s.strip()`: drop whitespace from both ends. -/
def pyStrip (s : String) : String :=
  String.mk (((s.data.dropWhile Char.isWhitespace).reverse.dropWhile
    Char.isWhitespace).reverse)

/-! ## Logo resolution
(`wheel_generator_dynamic.py`: `download_or_generate_logo` lines
331-340, `download_logo_clearbit` lines 342-375, `create_letter_logo`
lines 420-445, and the cache check of `generate_wheel` lines 467-475) -/

/-- `clean_name`: lowercase and strip apostrophes, spaces, commas and
periods before guessing domains. -/
def clean_name (merchant : String) : String :=
  pyReplace (pyReplace (pyReplace (pyReplace (pyLower merchant)
    apostropheChar "") ' ' "") ',' "") '.' ""

/-- The domain candidates `download_logo_clearbit` tries, in order. -/
def clearbitDomains (merchant : String) : List String :=
  [clean_name merchant ++ ".com",
   "www." ++ clean_name merchant ++ ".com",
   clean_name merchant ++ ".net",
   clean_name merchant ++ ".org"]

/-- Walk the domain list, one `requests.get` per entry, stopping at
the first image-typed response; also counts the network calls made. -/
def tryDomains (oracle : String → Option FileBytes) :
    List String → Option FileBytes × ℕ
  | [] => (none, 0)
  | d :: ds =>
    match oracle d with
    | some content => (some content, 1)
    | none =>
      match tryDomains oracle ds with
      | (res, k) => (res, k + 1)

/-- `download_logo_clearbit`: try every guessed domain in order. -/
def download_logo_clearbit (oracle : String → Option FileBytes)
    (merchant : String) : Option FileBytes × ℕ :=
  tryDomains oracle (clearbitDomains merchant)

/-- The 400x400 transparent RGBA canvas `create_letter_logo` builds,
with the letter drawn at the center via `draw.text((200, 200), ...)`. -/
def letterLogoImage (letter : Char) : PILImage :=
  { width := 400, height := 400,
    pixel := fun _ _ => ⟨255, 255, 255, 0⟩,
    texts := [(200, 200, letter.toString)] }

/-- `create_letter_logo`: draw the uppercased first character of the
stripped merchant name. `merchant.strip()[0]` raises `IndexError` when
the stripped name is empty, modelled as the error case. -/
def create_letter_logo (merchant : String) : Except String PILImage :=
  match (pyStrip merchant).data with
  | [] => .error "IndexError: string index out of range"
  | c :: _ => .ok (letterLogoImage c.toUpper)

/-- `download_or_generate_logo`: Clearbit first, letter logo as the
fallback; the returned number counts the network calls made. -/
def download_or_generate_logo (oracle : String → Option FileBytes)
    (merchant : String) : Except String (FileBytes × ℕ) :=
  match download_logo_clearbit oracle merchant with
  | (some content, k) => .ok (content, k)
  | (none, k) =>
    match create_letter_logo merchant with
    | .error e => .error e
    | .ok img => .ok (FileBytes.image img, k)

/-- The cache file name from `generate_wheel` line 469:
`merchant.lower().replace(' ', '_').replace("'", '').replace(",", "") + ".png"`. -/
def logoFilename (merchant : String) : String :=
  pyReplace (pyReplace (pyReplace (pyLower merchant) ' ' "_")
    apostropheChar "") ',' "" ++ ".png"

/-- The deterministic cache path inside the `logos` directory. -/
def logoPath (merchant : String) : String := "logos/" ++ logoFilename merchant

/-- The per-merchant resolution step of `generate_wheel` lines
467-475: return the cached file if it exists, otherwise download or
synthesize, write the file, and return the path together with the
updated directory and the number of network calls made. -/
def resolve (oracle : String → Option FileBytes) (fs : FS) (merchant : String) :
    Except String (String × FS × ℕ) :=
  match fs.lookup (logoPath merchant) with
  | some _ => .ok (logoPath merchant, fs, 0)
  | none =>
    match download_or_generate_logo oracle merchant with
    | .error e => .error e
    | .ok (content, k) =>
      .ok (logoPath merchant, (logoPath merchant, content) :: fs, k)

/-- The cache path is never the empty string. -/
theorem logoPath_ne_empty (m : String) : logoPath m ≠ "" := by
  intro h
  have hlen : (logoPath m).length = 0 := by rw [h]; rfl
  rw [logoPath, String.length_append] at hlen
  have h6 : ("logos/" : String).length = 6 := rfl
  omega

/-- When every request fails, the domain walk returns nothing after
one call per candidate domain. -/
theorem tryDomains_none (oracle : String → Option FileBytes)
    (horacle : ∀ d, oracle d = none) (l : List String) :
    tryDomains oracle l = (none, l.length) := by
  induction l with
  | nil => rfl
  | cons d ds ih => simp [tryDomains, horacle, ih]

/-- Claim C4, counterexample: on the empty asset key, with both lookup
APIs failing, `create_letter_logo` evaluates `merchant.strip()[0]` on
an empty string and the resolution raises `IndexError` instead of
returning a path. -/
theorem resolve_raises_counterexample :
    resolve (fun _ => none) [] "" =
      .error "IndexError: string index out of range" := rfl

/-- A nonempty stripped key starts with some character. -/
theorem strip_data_cons (m : String) (h : pyStrip m ≠ "") :
    ∃ c rest, (pyStrip m).data = c :: rest := by
  cases hl : (pyStrip m).data with
  | nil =>
    exact absurd (String.ext (by simp [hl] : (pyStrip m).data = ("" : String).data)) h
  | cons c rest => exact ⟨c, rest, rfl⟩

/-- Claim C4 (amended): for every asset key whose stripped form is
nonempty, resolution never raises: it returns the deterministic,
nonempty cache path with a file present there, whatever the two
lookup APIs do; and when both APIs fail on a cache miss, the
letter-synthesis fallback stores a valid 400x400 image carrying the
uppercased first character, so the returned path decodes. -/
theorem resolve_total_amended_ok (oracle : String → Option FileBytes) (fs : FS)
    (merchant : String) (h : pyStrip merchant ≠ "") :
    (∃ fs2 k, resolve oracle fs merchant = .ok (logoPath merchant, fs2, k) ∧
      logoPath merchant ≠ "" ∧
      (fs2.lookup (logoPath merchant)).isSome = true) ∧
    ((∀ d, oracle d = none) → fs.lookup (logoPath merchant) = none →
      ∃ fs2 k c rest, (pyStrip merchant).data = c :: rest ∧
        resolve oracle fs merchant = .ok (logoPath merchant, fs2, k) ∧
        fs2.lookup (logoPath merchant) =
          some (FileBytes.image (letterLogoImage c.toUpper))) := by
  obtain ⟨c, rest, hcr⟩ := strip_data_cons merchant h
  constructor
  · cases hfs : List.lookup (logoPath merchant) fs with
    | some v =>
      refine ⟨fs, 0, ?_, logoPath_ne_empty merchant, ?_⟩
      · simp only [resolve, hfs]
      · rw [hfs]; rfl
    | none =>
      rcases hdl : download_logo_clearbit oracle merchant with ⟨res, k⟩
      cases res with
      | some content =>
        refine ⟨(logoPath merchant, content) :: fs, k, ?_,
          logoPath_ne_empty merchant, ?_⟩
        · simp only [resolve, hfs, download_or_generate_logo, hdl]
        · simp [List.lookup_cons_self]
      | none =>
        refine ⟨(logoPath merchant,
            FileBytes.image (letterLogoImage c.toUpper)) :: fs, k, ?_,
          logoPath_ne_empty merchant, ?_⟩
        · simp only [resolve, hfs, download_or_generate_logo, hdl,
            create_letter_logo, hcr]
        · simp [List.lookup_cons_self]
  · intro horacle hmiss
    have htry : download_logo_clearbit oracle merchant =
        (none, (clearbitDomains merchant).length) :=
      tryDomains_none oracle horacle _
    refine ⟨(logoPath merchant,
        FileBytes.image (letterLogoImage c.toUpper)) :: fs,
      (clearbitDomains merchant).length, c, rest, hcr, ?_, ?_⟩
    · simp only [resolve, hmiss, download_or_generate_logo, htry,
        create_letter_logo, hcr]
    · simp [List.lookup_cons_self]

/-- Witness for `resolve_total_amended_ok` on the key "Nike" with an
empty cache and both lookup APIs failing. -/
theorem resolve_total_amended_witness :
    pyStrip "Nike" ≠ "" ∧
    ((∃ fs2 k, resolve (fun _ => none) [] "Nike" = .ok (logoPath "Nike", fs2, k) ∧
      logoPath "Nike" ≠ "" ∧
      (fs2.lookup (logoPath "Nike")).isSome = true) ∧
    ((∀ d, (fun _ : String => (none : Option FileBytes)) d = none) →
      List.lookup (logoPath "Nike") ([] : FS) = none →
      ∃ fs2 k c rest, (pyStrip "Nike").data = c :: rest ∧
        resolve (fun _ => none) [] "Nike" = .ok (logoPath "Nike", fs2, k) ∧
        fs2.lookup (logoPath "Nike") =
          some (FileBytes.image (letterLogoImage c.toUpper)))) :=
  ⟨by decide, resolve_total_amended_ok (fun _ => none) [] "Nike" (by decide)⟩

/-- Claim C5: once a resolution has succeeded, resolving the same key
against the resulting directory is a cache hit — the same path comes
back with zero network calls and the directory unchanged; the path is
the deterministic cache path of the key. -/
theorem resolve_cache_idempotent (oracle : String → Option FileBytes)
    (fs : FS) (merchant p : String) (fs2 : FS) (k : ℕ)
    (h : resolve oracle fs merchant = .ok (p, fs2, k)) :
    resolve oracle fs2 merchant = .ok (p, fs2, 0) ∧ p = logoPath merchant := by
  unfold resolve at h ⊢
  cases hfs : List.lookup (logoPath merchant) fs with
  | some v =>
    rw [hfs] at h
    simp only [Except.ok.injEq, Prod.mk.injEq] at h
    obtain ⟨hp, hfs2, hk⟩ := h
    subst hp
    subst hfs2
    rw [hfs]
    exact ⟨rfl, rfl⟩
  | none =>
    rw [hfs] at h
    cases hdlg : download_or_generate_logo oracle merchant with
    | error e => rw [hdlg] at h; exact absurd h (by simp)
    | ok ck =>
      rcases ck with ⟨content, k0⟩
      rw [hdlg] at h
      simp only [Except.ok.injEq, Prod.mk.injEq] at h
      obtain ⟨hp, hfs2, hk⟩ := h
      subst hp
      subst hfs2
      rw [List.lookup_cons_self]
      exact ⟨rfl, rfl⟩

/-- Witness for `resolve_cache_idempotent`: a first resolution of
"REI" against an empty cache, then the warm second call. -/
theorem resolve_cache_idempotent_witness :
    ∃ p fs2 k, resolve (fun _ => none) [] "REI" = .ok (p, fs2, k) ∧
      resolve (fun _ => none) fs2 "REI" = .ok (p, fs2, 0) ∧
      p = logoPath "REI" := by
  refine ⟨_, _, _, rfl, ?_, ?_⟩
  · exact (resolve_cache_idempotent (fun _ => none) [] "REI" _ _ _ rfl).1
  · exact (resolve_cache_idempotent (fun _ => none) [] "REI" _ _ _ rfl).2

/-- Claim C10: the cache-path normalization is not injective — "REI"
and "rei" are distinct keys with the same cache path, and after "REI"
has been resolved (with failing lookups, caching its letter logo), a
resolution of "rei" silently returns the file cached for "REI",
without any network call. -/
theorem cache_key_not_injective_ok :
    ("REI" : String) ≠ "rei" ∧
    logoPath "REI" = logoPath "rei" ∧
    ∃ fs2 k, resolve (fun _ => none) [] "REI" = .ok (logoPath "REI", fs2, k) ∧
      resolve (fun _ => none) fs2 "rei" = .ok (logoPath "REI", fs2, 0) := by
  refine ⟨by decide, by decide, _, _, rfl, rfl⟩

/-! ## Corner-pixel background sniffing
(`wheel_generator_dynamic.py`, `generate_wheel`, lines 616-650) -/

/-- The four corner pixels `generate_wheel` samples, in source order:
(0,0), (width-1,0), (0,height-1), (width-1,height-1). -/
def corners (img : PILImage) : List PixelRGBA :=
  [img.pixel 0 0, img.pixel (img.width - 1) 0,
   img.pixel 0 (img.height - 1), img.pixel (img.width - 1) (img.height - 1)]

/-- `abs(c[i] - first_corner[i]) < 30 for i in range(3)`: one corner
within 30 of the reference on each of the three color channels. -/
def chanSimilar (c f : PixelRGBA) : Bool :=
  decide ((c.r - f.r).natAbs < 30) && decide ((c.g - f.g).natAbs < 30) &&
    decide ((c.b - f.b).natAbs < 30)

/-- `all(c > 240 for c in first_corner)`: near-white test on the
reference corner's color channels. -/
def nearWhiteBool (p : PixelRGBA) : Bool :=
  decide (240 < p.r) && decide (240 < p.g) && decide (240 < p.b)

/-- The source's decision: every corner is channel-wise within 30 of
the first corner, and the first corner is not near-white. -/
def has_colored_bg (img : PILImage) : Bool :=
  ((corners img).all fun c => chanSimilar c (img.pixel 0 0)) &&
    !nearWhiteBool (img.pixel 0 0)

/-- `bg_color = first_corner` (its three color channels). -/
def bg_color (img : PILImage) : ℤ × ℤ × ℤ :=
  ((img.pixel 0 0).r, (img.pixel 0 0).g, (img.pixel 0 0).b)

/-- Color of the circular backing plate behind the asset: the sniffed
background color when the check fires, else white. -/
def plate_color (img : PILImage) : ℤ × ℤ × ℤ :=
  if has_colored_bg img then bg_color img else (255, 255, 255)

/-- The mutual-similarity condition as claim C8 words it: every pair
of corners within 30 per channel. Stated from the claim's words, for
comparison with the source's first-corner check. -/
def mutuallySimilar (img : PILImage) : Prop :=
  ∀ c ∈ corners img, ∀ f ∈ corners img,
    (c.r - f.r).natAbs < 30 ∧ (c.g - f.g).natAbs < 30 ∧
      (c.b - f.b).natAbs < 30

/-- Near-white as a proposition: all three channels above 240. -/
def nearWhite (p : PixelRGBA) : Prop := 240 < p.r ∧ 240 < p.g ∧ 240 < p.b

/-- An image whose corners are (100,100,100), (125,125,125),
(76,76,76), (100,100,100): each within 30 of the first corner, but the
second and third differ by 49 on every channel. -/
def imgAsym : PILImage :=
  { width := 2, height := 2,
    pixel := fun x y =>
      if x = 0 ∧ y = 0 then ⟨100, 100, 100, 255⟩
      else if x = 1 ∧ y = 0 then ⟨125, 125, 125, 255⟩
      else if x = 0 ∧ y = 1 then ⟨76, 76, 76, 255⟩
      else ⟨100, 100, 100, 255⟩,
    texts := [] }

/-- An image with all four corners at RGB (10,10,10). -/
def imgDark : PILImage :=
  { width := 2, height := 2, pixel := fun _ _ => ⟨10, 10, 10, 255⟩,
    texts := [] }

/-- An image with all four corners at RGB (250,250,250). -/
def imgWhite : PILImage :=
  { width := 2, height := 2, pixel := fun _ _ => ⟨250, 250, 250, 255⟩,
    texts := [] }

/-- Claim C8, counterexample: the source colors the plate for an image
whose corners are not mutually similar — corners (125,125,125) and
(76,76,76) differ by 49 per channel, yet every corner is within 30 of
the first corner (100,100,100), so the check fires. The claimed
"if and only if all four corners are mutually similar" is false. -/
theorem corner_similarity_counterexample :
    has_colored_bg imgAsym = true ∧ ¬ mutuallySimilar imgAsym :=
  ⟨by decide, by unfold mutuallySimilar; decide⟩

/-- Claim C8 (amended): the colored backing plate is used if and only
if all four corners are channel-wise within 30 of the FIRST corner
(not pairwise) and the first corner is not near-white; when it fires
the plate takes the first corner's color, else white; corners all at
(10,10,10) trigger it and corners all at (250,250,250) do not. -/
theorem corner_background_amended_ok (img : PILImage) :
    (has_colored_bg img = true ↔
      ((∀ c ∈ corners img,
        (c.r - (img.pixel 0 0).r).natAbs < 30 ∧
        (c.g - (img.pixel 0 0).g).natAbs < 30 ∧
        (c.b - (img.pixel 0 0).b).natAbs < 30) ∧
       ¬ nearWhite (img.pixel 0 0))) ∧
    (has_colored_bg img = true → plate_color img = bg_color img) ∧
    (has_colored_bg img = false → plate_color img = (255, 255, 255)) ∧
    has_colored_bg imgDark = true ∧ has_colored_bg imgWhite = false := by
  refine ⟨?_, ?_, ?_, by decide, by decide⟩
  · simp [has_colored_bg, chanSimilar, nearWhiteBool, nearWhite,
      List.all_eq_true, Bool.and_eq_true, Bool.not_eq_true', decide_eq_true_eq]
    constructor
    · rintro ⟨h1, h2⟩
      refine ⟨fun c hc => ?_, ?_⟩
      · obtain ⟨⟨ha, hb⟩, hc2⟩ := h1 c hc
        exact ⟨ha, hb, hc2⟩
      · intro hr hg
        rcases h2 with (h2 | h2) | h2 <;> omega
    · rintro ⟨h1, h2⟩
      refine ⟨fun c hc => ?_, ?_⟩
      · obtain ⟨ha, hb, hc2⟩ := h1 c hc
        exact ⟨⟨ha, hb⟩, hc2⟩
      · by_cases hr : 240 < (img.pixel 0 0).r
        · by_cases hg : 240 < (img.pixel 0 0).g
          · exact Or.inr (h2 hr hg)
          · exact Or.inl (Or.inr (by omega))
        · exact Or.inl (Or.inl (by omega))
  · intro h
    simp [plate_color, h]
  · intro h
    simp [plate_color, h]

/-! ## Per-segment rendering and the full wheel
(`wheel_generator_dynamic.py`, `generate_wheel`, lines 596-699)

Opening a file either yields the decoded image, or raises — a missing
file or junk bytes. The `try`/`except` around the logo placement turns
any such failure into the initials-text fallback, leaving the render
loop total. The run of `generate_wheel` is modelled as the resolution
pass over the rows (which writes `logo_path` into the table and may
raise on an empty merchant name), followed by the per-segment render
outcomes and the CSV summary. -/

/-- What one segment's logo placement produces: the asset image on its
backing plate, or the bold initials text of the `except` branch. -/
inductive LogoRender where
  | image (plate : ℤ × ℤ × ℤ) (img : PILImage)
  | initials (text : String)

/-- Helper for Python `str.split()`: cut a character list at
whitespace runs, accumulating the current word reversed. -/
def splitWsAux : List Char → List Char → List (List Char)
  | [], acc => if acc = [] then [] else [acc.reverse]
  | c :: cs, acc =>
    if Char.isWhitespace c then
      if acc = [] then splitWsAux cs [] else acc.reverse :: splitWsAux cs []
    else splitWsAux cs (c :: acc)

/-- Python `s.split()` with no argument: whitespace-separated words,
empties dropped. -/
def pySplitWords (s : String) : List String :=
  (splitWsAux s.data []).map String.mk

/-- `''.join([word[0].upper() for word in merchant.split()[:2]])`: the
uppercased initials of the first two words. -/
def pyInitials (merchant : String) : String :=
  String.mk (((pySplitWords merchant).take 2).map fun w =>
    (w.data.headD ' ').toUpper)

/-- `Image.open`: the decoded image, or an error for a missing file or
undecodable bytes. -/
def pilOpen (fs : FS) (path : String) : Except String PILImage :=
  match fs.lookup path with
  | some (FileBytes.image img) => .ok img
  | some FileBytes.junk => .error "UnidentifiedImageError"
  | none => .error "FileNotFoundError"

/-- The `try`/`except` of the logo placement: place the image on its
plate, or fall back to the merchant's initials on any failure. -/
def renderSegmentLogo (fs : FS) (row : Row) : LogoRender :=
  match pilOpen fs row.logo_path with
  | .ok img => .image (plate_color img) img
  | .error _ => .initials (pyInitials row.merchant)

/-- The download loop of `generate_wheel` lines 467-475: resolve each
row's merchant in order, threading the logo directory, and store the
resulting path in the row's `logo_path` column. -/
def resolveLogos (oracle : String → Option FileBytes) :
    FS → List Row → Except String (FS × List Row × ℕ)
  | fs, [] => .ok (fs, [], 0)
  | fs, row :: rest =>
    match resolve oracle fs row.merchant with
    | .error e => .error e
    | .ok (p, fs1, k) =>
      match resolveLogos oracle fs1 rest with
      | .error e => .error e
      | .ok (fs2, rest2, k2) =>
        .ok (fs2, { row with logo_path := p } :: rest2, k + k2)

/-- Everything a successful `generate_wheel` run leaves behind: the
logo directory, the table with `logo_path` filled in, the per-segment
render outcomes, and the CSV summary rows. -/
structure WheelOutput where
  fs : FS
  rows : List Row
  logoRenders : List LogoRender
  summaryCsv : List (String × String × ℚ × String)

/-- The four columns the CSV summary keeps:
`(COMMUNITY, MERCHANT, PERC_INDEX, behavior)`. -/
def projSegment (r : Row) : String × String × ℚ × String :=
  (r.community, r.merchant, r.perc_index, r.behavior)

/-- One `generate_wheel` run: resolve all logos, then render every
segment and write the summary. -/
def generate_wheel (oracle : String → Option FileBytes) (fs : FS)
    (df : List Row) : Except String WheelOutput :=
  match resolveLogos oracle fs df with
  | .error e => .error e
  | .ok (fs2, df2, _) =>
    .ok { fs := fs2, rows := df2,
          logoRenders := df2.map (renderSegmentLogo fs2),
          summaryCsv := df2.map projSegment }

/-- Claim C6: when a resolved asset file exists but holds undecodable
bytes, the render still completes — one outcome per segment — and that
segment renders the uppercase initials of the first two words of its
merchant name instead of the image. -/
theorem decode_failure_fallback_ok (oracle : String → Option FileBytes)
    (fs : FS) (df : List Row) (out : WheelOutput) (row : Row) (i : ℕ)
    (h : generate_wheel oracle fs df = .ok out)
    (hrow : out.rows[i]? = some row)
    (hjunk : out.fs.lookup row.logo_path = some FileBytes.junk) :
    out.logoRenders.length = out.rows.length ∧
    out.logoRenders[i]? = some (.initials (pyInitials row.merchant)) := by
  unfold generate_wheel at h
  cases hr : resolveLogos oracle fs df with
  | error e => rw [hr] at h; exact absurd h (by simp)
  | ok t =>
    rcases t with ⟨fs2, df2, k⟩
    rw [hr] at h
    simp only [Except.ok.injEq] at h
    subst h
    simp only at hrow hjunk ⊢
    refine ⟨by simp, ?_⟩
    rw [List.getElem?_map, hrow, Option.map_some']
    unfold renderSegmentLogo pilOpen
    rw [hjunk]

/-- A one-row table whose merchant is "Rip Curl". -/
def rowSurf : Row := ⟨"Surf", "Rip Curl", 23, "Surfs Rip Curl", ""⟩

/-- Witness for `decode_failure_fallback_ok`: the lookup API serves
junk bytes for "Rip Curl"; the render completes and shows "RC". -/
theorem decode_failure_fallback_witness :
    ∃ out, generate_wheel (fun _ => some FileBytes.junk) [] [rowSurf] =
        .ok out ∧
      out.logoRenders.length = out.rows.length ∧
      out.logoRenders[0]? = some (.initials "RC") := by
  refine ⟨_, rfl, ?_, ?_⟩
  · exact (decode_failure_fallback_ok (fun _ => some FileBytes.junk) []
      [rowSurf] _ _ 0 rfl rfl rfl).1
  · exact (decode_failure_fallback_ok (fun _ => some FileBytes.junk) []
      [rowSurf] _ _ 0 rfl rfl rfl).2

/-- The download loop only writes the `logo_path` column: the four
spec'd columns of every row survive, in order. -/
theorem resolveLogos_map_proj (oracle : String → Option FileBytes) :
    ∀ (df : List Row) (fs fs2 : FS) (df2 : List Row) (k : ℕ),
      resolveLogos oracle fs df = .ok (fs2, df2, k) →
      df2.map projSegment = df.map projSegment := by
  intro df
  induction df with
  | nil =>
    intro fs fs2 df2 k h
    simp only [resolveLogos, Except.ok.injEq, Prod.mk.injEq] at h
    obtain ⟨h1, h2, h3⟩ := h
    subst h2
    rfl
  | cons row rest ih =>
    intro fs fs2 df2 k h
    simp only [resolveLogos] at h
    split at h
    · exact absurd h (by simp)
    · rename_i p fs1 k1 heq1
      split at h
      · exact absurd h (by simp)
      · rename_i fsr restr kr heq2
        simp only [Except.ok.injEq, Prod.mk.injEq] at h
        obtain ⟨hfs, hdf, hk⟩ := h
        subst hdf
        simp only [List.map_cons]
        rw [ih _ _ _ _ heq2]
        rfl

/-- Claim C9: after a successful render the caller's segment table
holds the same records — label, asset key, rank value, behavior text —
in the same order as the input, and the CSV summary repeats them;
the engine only adds the `logo_path` column. -/
theorem segments_preserved_ok (oracle : String → Option FileBytes) (fs : FS)
    (df : List Row) (out : WheelOutput)
    (h : generate_wheel oracle fs df = .ok out) :
    out.rows.map projSegment = df.map projSegment ∧
    out.summaryCsv = df.map projSegment := by
  unfold generate_wheel at h
  cases hr : resolveLogos oracle fs df with
  | error e => rw [hr] at h; exact absurd h (by simp)
  | ok t =>
    rcases t with ⟨fs2, df2, k⟩
    rw [hr] at h
    simp only [Except.ok.injEq] at h
    subst h
    have hm := resolveLogos_map_proj oracle df fs fs2 df2 k hr
    exact ⟨hm, hm⟩

/-- Witness for `segments_preserved_ok`: a full run on the four-row
table against an empty cache with failing lookups. -/
theorem segments_preserved_witness :
    ∃ out, generate_wheel (fun _ => none) [] df4 = .ok out ∧
      out.rows.map projSegment = df4.map projSegment ∧
      out.summaryCsv = df4.map projSegment := by
  refine ⟨_, rfl, ?_, ?_⟩
  · exact (segments_preserved_ok (fun _ => none) [] df4 _ rfl).1
  · exact (segments_preserved_ok (fun _ => none) [] df4 _ rfl).2

end SILPPT
